/-
Verification development for the VibeCAD parametric evaluation core.

Shallow embedding of `src/backend/dfm_validator.py` (class DFMValidator) and
`src/backend/cost_estimator.py` (class CostEstimator) into Lean 4.

Modelling conventions:
* Python floats are embedded as exact rationals (ℚ); Python ints as ℤ/ℕ.
* A Python dict field read with `d.get(key, default)` becomes an `Option`
  field read with `Option.getD`.
* A Python function that can raise (here: only `ZeroDivisionError` from the
  unguarded divisions in the cost estimator) returns `Option`; `none` models
  the raised exception.
* Findings (the dicts appended to issues/warnings/suggestions) are embedded
  as an inductive type whose constructors carry exactly the dynamic values
  interpolated into the source's message strings; the literal message text
  is not reproduced, since no behaviour depends on it.
-/
import Mathlib

namespace VibeCAD

/-! ## Findings (the issue/warning/suggestion dicts of dfm_validator.py) -/

/-- One finding appended by `DFMValidator.validate` to `issues`, `warnings`
or `suggestions`.  Each constructor corresponds to one `append` site in
`dfm_validator.py` and carries the dynamic values of that site's message. -/
inductive Finding where
  /-- lines 93-98: critical issue, wall thickness below minimum -/
  | wallTooThin (wall minw : ℚ)
  /-- lines 100-105: warning, wall thickness above maximum -/
  | wallTooThick (wall maxw : ℚ)
  /-- lines 107-111: suggestion, wall thickness outside recommended band -/
  | wallRecommended (lo hi wall : ℚ)
  /-- lines 121-126: critical issue, hole diameter below minimum -/
  | holeDiameterTooSmall (d mind : ℚ)
  /-- lines 134-139: warning, two holes closer than the minimum spacing -/
  | holeSpacing (p1 p2 : ℚ × ℚ) (mins : ℚ)
  /-- lines 149-153 and 155-159: warning, hole too close to an edge -/
  | tooCloseToEdge (pos : ℚ × ℚ) (mine : ℚ)
  /-- line 75: warning string "No DFM rules found for {material} + {process}" -/
  | noRulesFound (material process : String)
deriving DecidableEq, Repr

def Finding.isWallThin : Finding → Bool
  | .wallTooThin _ _ => true
  | _ => false

def Finding.isWallThick : Finding → Bool
  | .wallTooThick _ _ => true
  | _ => false

def Finding.isHoleSpacing : Finding → Bool
  | .holeSpacing _ _ _ => true
  | _ => false

def Finding.isEdge : Finding → Bool
  | .tooCloseToEdge _ _ => true
  | _ => false

/-! ## Input records (the parameter dicts consumed by validate) -/

/-- The `primary_geometry` sub-dict; `validate` reads only these three keys
(lines 86, 143, 144), each with `.get` and a numeric default. -/
structure GeometryParams where
  wall_thickness : Option ℚ := none
  base_length : Option ℚ := none
  base_width : Option ℚ := none
deriving DecidableEq, Repr

/-- The `mounting_pattern` sub-dict (lines 115-117).  A position is the
(x, y) pair `pos[0], pos[1]`. -/
structure MountingPattern where
  hole_diameter : Option ℚ := none
  positions : List (ℚ × ℚ) := []
deriving DecidableEq, Repr

/-- The top-level parameter record.  `none` models an absent dict key. -/
structure DesignParams where
  material : Option String := none
  manufacturing_process : Option String := none
  primary_geometry : Option GeometryParams := none
  mounting_pattern : Option MountingPattern := none
deriving DecidableEq, Repr

/-! ## DFM rule table (DFMValidator._load_rules, lines 11-59) -/

/-- One `(material, process)` rule dict.  Only the keys that `validate`
actually reads are embedded (min/max/recommended wall thickness,
min hole diameter, min hole spacing, min edge distance); the remaining
keys of `_load_rules` (min_radius, recommended_radius, max_overhang_angle,
recommended_infill, layer_height, hardness_note, depth ratio) are never
consulted by any code path and are omitted. -/
structure DFMRule where
  min_wall_thickness : Option ℚ := none
  recommended_wall_thickness : Option (ℚ × ℚ) := none
  max_wall_thickness : Option ℚ := none
  min_hole_diameter : Option ℚ := none
  min_hole_spacing : Option ℚ := none
  min_edge_distance : Option ℚ := none
deriving DecidableEq, Repr

/-- `self.rules.get(material, {}).get(process, {})` followed by the
`if not process_rules` emptiness test (lines 71-74): a missing material or
process key yields the empty dict, which is falsy, so both lookups together
are one partial map returning `none` exactly when the source takes the
early-return branch.  Numeric literals are the exact rationals of the
source floats. -/
def dfmRules (material process : String) : Option DFMRule :=
  match material, process with
  | "aluminum_6061_t6", "cnc_milling" =>
      some { min_wall_thickness := some (3/2),
             recommended_wall_thickness := some (2, 3),
             max_wall_thickness := some 8,
             min_hole_diameter := some 3,
             min_hole_spacing := some 5,
             min_edge_distance := some 3 }
  | "steel_mild", "cnc_milling" =>
      some { min_wall_thickness := some 1,
             recommended_wall_thickness := some (3/2, 5/2),
             max_wall_thickness := some 10,
             min_hole_diameter := some (5/2),
             min_hole_spacing := some 5,
             min_edge_distance := some 3 }
  | "plastic_abs", "3d_printing" =>
      some { min_wall_thickness := some (4/5),
             recommended_wall_thickness := some (6/5, 2) }
  | "stainless_304", "cnc_milling" =>
      some { min_wall_thickness := some 1,
             recommended_wall_thickness := some (3/2, 3),
             min_hole_diameter := some 3 }
  | _, _ => none

/-! ## Result record -/

/-- The dict returned by `validate`.  The early-return dict of lines 76-82
has no `dfm_score` key, so that field is an `Option`; `none` models the
absent key. -/
structure ValidationResult where
  valid : Bool
  issues : List Finding
  warnings : List Finding
  suggestions : List Finding
  confidence : ℚ
  dfm_score : Option ℤ
deriving DecidableEq, Repr

/-! ## Pieces of validate -/

/-- Python `int()` truncates toward zero (line 175: `int(confidence * 100)`). -/
def truncInt (x : ℚ) : ℤ := if x < 0 then ⌈x⌉ else ⌊x⌋

/-- Lines 161-167: start at 1.0, subtract 0.2 per issue when `issues` is
nonempty, 0.1 per warning when `warnings` is nonempty, clamp to [0, 1]. -/
def confidenceOf (i w : ℕ) : ℚ :=
  let c : ℚ := 1
  let c := if i ≠ 0 then c - i * (1/5) else c
  let c := if w ≠ 0 then c - w * (1/10) else c
  max 0 (min 1 c)

/-- Line 132-133: `math.sqrt((p1[0]-p2[0])**2 + (p1[1]-p2[1])**2) < min_spacing`.
Over the reals, `Real.sqrt d < s ↔ 0 < s ∧ d < s^2` for `0 ≤ d`
(proved below as `distLtB_eq_sqrt_lt`), which lets the comparison stay in ℚ. -/
def distLtB (p q : ℚ × ℚ) (s : ℚ) : Bool :=
  decide (0 < s ∧ (p.1 - q.1)^2 + (p.2 - q.2)^2 < s^2)

/-- Lines 130-139: `for i, pos1 in enumerate(positions): for pos2 in
positions[i+1:]: ...` — each unordered pair once, one warning appended per
pair closer than `min_spacing`, in loop order, with no deduplication and no
early exit. -/
def spacingWarnings : List (ℚ × ℚ) → ℚ → List Finding
  | [], _ => []
  | p :: rest, s =>
      (rest.filterMap fun q =>
        if distLtB p q s then some (Finding.holeSpacing p q s) else none)
        ++ spacingWarnings rest s

/-- Lines 146-159: per position, the x test against [0, base_length] and the
y test against [0, base_width], each appending its own warning. -/
def edgeCheck (pos : ℚ × ℚ) (minEdge baseLength baseWidth : ℚ) : List Finding :=
  (if pos.1 < minEdge ∨ pos.1 > baseLength - minEdge
    then [Finding.tooCloseToEdge pos minEdge] else [])
  ++ (if pos.2 < minEdge ∨ pos.2 > baseWidth - minEdge
    then [Finding.tooCloseToEdge pos minEdge] else [])

/-- Lines 92-111: the `if / elif / elif` wall-thickness chain, returning
(issues, warnings, suggestions) contributed by this check. -/
def wallCheck (r : DFMRule) (wall : ℚ) : List Finding × List Finding × List Finding :=
  let minWall := r.min_wall_thickness.getD 1
  let maxWall := r.max_wall_thickness.getD 10
  let recWall := r.recommended_wall_thickness.getD (2, 3)
  if wall < minWall then ([Finding.wallTooThin wall minWall], [], [])
  else if wall > maxWall then ([], [Finding.wallTooThick wall maxWall], [])
  else if wall < recWall.1 ∨ wall > recWall.2 then
    ([], [], [Finding.wallRecommended recWall.1 recWall.2 wall])
  else ([], [], [])

/-- Lines 114-159: all checks guarded by `if 'mounting_pattern' in params`,
returning (issues, warnings) contributed by them.  Warnings are appended in
source order: all spacing warnings, then all edge warnings. -/
def mountingCheck (r : DFMRule) (geometry : GeometryParams)
    (mp : Option MountingPattern) : List Finding × List Finding :=
  match mp with
  | none => ([], [])
  | some hp =>
      let holeDiameter := hp.hole_diameter.getD (9/2)
      let positions := hp.positions
      let minHole := r.min_hole_diameter.getD 3
      let dIssues := if holeDiameter < minHole
        then [Finding.holeDiameterTooSmall holeDiameter minHole] else []
      let minSpacing := r.min_hole_spacing.getD 5
      let sw := spacingWarnings positions minSpacing
      let minEdge := r.min_edge_distance.getD 3 * holeDiameter
      let baseLength := geometry.base_length.getD 100
      let baseWidth := geometry.base_width.getD 80
      let ew := positions.flatMap fun pos => edgeCheck pos minEdge baseLength baseWidth
      (dIssues, sw ++ ew)

/-- Line 63: `params.get('material', 'aluminum_6061_t6')`. -/
def materialOf (p : DesignParams) : String := p.material.getD "aluminum_6061_t6"

/-- Line 64: `params.get('manufacturing_process', 'cnc_milling')`. -/
def processOf (p : DesignParams) : String :=
  p.manufacturing_process.getD "cnc_milling"

/-- Line 85: `params.get('primary_geometry', {})`. -/
def geometryOf (p : DesignParams) : GeometryParams :=
  p.primary_geometry.getD {}

/-- Line 86: `geometry.get('wall_thickness', 2.0)`. -/
def wallOf (p : DesignParams) : ℚ := (geometryOf p).wall_thickness.getD 2

/-- `DFMValidator.validate` (lines 61-176).  Output lists preserve the
source's append order: issues = wall issue then hole-diameter issue;
warnings = wall warning, then spacing warnings, then edge warnings. -/
def validate (p : DesignParams) : ValidationResult :=
  match dfmRules (materialOf p) (processOf p) with
  | none =>
      { valid := true, issues := [],
        warnings := [Finding.noRulesFound (materialOf p) (processOf p)],
        suggestions := [], confidence := 1/2, dfm_score := none }
  | some rules =>
      let wc := wallCheck rules (wallOf p)
      let mc := mountingCheck rules (geometryOf p) p.mounting_pattern
      let issues := wc.1 ++ mc.1
      let warnings := wc.2.1 ++ mc.2
      let confidence := confidenceOf issues.length warnings.length
      { valid := issues.length == 0, issues := issues, warnings := warnings,
        suggestions := wc.2.2, confidence := confidence,
        dfm_score := some (truncInt (confidence * 100)) }

/-! ## Cost estimator: reference tables (cost_estimator.py lines 12-51) -/

/-- `_load_material_prices` (lines 12-21), $/kg, exact rationals. -/
def materialPrices (m : String) : Option ℚ :=
  match m with
  | "aluminum_6061_t6" => some (24/5)
  | "steel_mild" => some (5/2)
  | "stainless_304" => some (31/5)
  | "plastic_abs" => some 3
  | "plastic_pla" => some (5/2)
  | "titanium" => some 35
  | _ => none

/-- The density table inside `estimate_cost` (lines 62-69), g/cm³. -/
def densities (m : String) : Option ℚ :=
  match m with
  | "aluminum_6061_t6" => some (27/10)
  | "steel_mild" => some (157/20)
  | "stainless_304" => some 8
  | "plastic_abs" => some (21/20)
  | "plastic_pla" => some (5/4)
  | "titanium" => some (9/2)
  | _ => none

/-- One `_load_process_rates` entry (lines 23-51).  The four process dicts
are heterogeneous, so every key that any of them holds is an `Option`
field; a process's absent keys are `none`, and `self.process_rates.get(
process, {})` for an unknown process yields the all-`none` record (the
empty dict), each formula then applying its own literal defaults. -/
structure ProcessRates where
  labor_rate : Option ℚ := none
  overhead_rate : Option ℚ := none
  tooling_base : Option ℚ := none
  time_per_cm3 : Option ℚ := none
  setup_time : Option ℚ := none
  machine_rate : Option ℚ := none
  support_factor : Option ℚ := none
  mold_cost : Option ℚ := none
  cycle_time : Option ℚ := none
  cutting_time : Option ℚ := none
  bending_time : Option ℚ := none
deriving DecidableEq, Repr

/-- `_load_process_rates` (lines 23-51) composed with the
`.get(process, {})` lookup of line 76. -/
def processRates (p : String) : ProcessRates :=
  match p with
  | "cnc_milling" =>
      { labor_rate := some 16, overhead_rate := some (1/4),
        tooling_base := some 50, time_per_cm3 := some (1/2),
        setup_time := some 15 }
  | "3d_printing" =>
      { machine_rate := some 8, overhead_rate := some (3/20),
        time_per_cm3 := some 2, support_factor := some (7/5) }
  | "injection_molding" =>
      { mold_cost := some 5000, cycle_time := some 30,
        labor_rate := some 12, overhead_rate := some (1/5) }
  | "sheet_metal" =>
      { labor_rate := some 14, overhead_rate := some (11/50),
        cutting_time := some (3/10), bending_time := some 2 }
  | _ => {}

/-- The bounding-box dict; `estimate_cost` reads only `volume`
(line 59, `bounding_box.get('volume', 1000)`). -/
structure BoundingBox where
  length : Option ℚ := none
  width : Option ℚ := none
  height : Option ℚ := none
  volume : Option ℚ := none
deriving DecidableEq, Repr

/-- The result dict of the three `_estimate_*_cost` helpers.  Keys present
only in some variants (`print_time_hours`, `mold_cost_total`) are `Option`
fields, `none` modelling the absent key. -/
structure CostEstimate where
  process : String
  unit_cost : ℚ
  total_cost : ℚ
  breakdown : List (String × ℚ)
  lead_time_days : String
  best_for : String
  quantity : ℤ
  mass_kg : ℚ
  print_time_hours : Option ℚ := none
  mold_cost_total : Option ℚ := none
deriving DecidableEq, Repr

/-! ## Rounding (Python round(x, n) is round-half-to-even) -/

/-- Round to the nearest integer, ties to the even integer — the rounding
mode of Python's built-in `round`, over exact rationals. -/
def roundHalfEven (x : ℚ) : ℤ :=
  if x - ⌊x⌋ < 1/2 then ⌊x⌋
  else if x - ⌊x⌋ > 1/2 then ⌊x⌋ + 1
  else if ⌊x⌋ % 2 = 0 then ⌊x⌋ else ⌊x⌋ + 1

/-- Python `round(x, n)` over exact rationals. -/
def roundTo (n : ℕ) (x : ℚ) : ℚ := (roundHalfEven (x * 10^n) : ℚ) / 10^n

/-! ## Shared preamble of estimate_cost (lines 53-76) -/

/-- Line 59: `bounding_box.get('volume', 1000) / 1000` (mm³ → cm³). -/
def volumeCm3Of (bb : BoundingBox) : ℚ := bb.volume.getD 1000 / 1000

/-- Lines 71-72: `densities.get(material, 2.70)`, then
`mass_kg = volume_cm3 * density / 1000`. -/
def massOf (p : DesignParams) (bb : BoundingBox) : ℚ :=
  volumeCm3Of bb * (densities (materialOf p)).getD (27/10) / 1000

/-- Line 75: `self.material_prices.get(material, 5.0)`. -/
def materialPriceOf (p : DesignParams) : ℚ :=
  (materialPrices (materialOf p)).getD 5

/-! ## CNC milling (lines 91-139) -/

/-- Lines 94-115 of `_estimate_cnc_cost`: the unit cost before the volume
discount (direct cost plus overhead).  Defined for `quantity ≠ 0`; the
caller guards the `tooling_base / quantity` division. -/
def cncUndiscountedUnitCost (massKg volumeCm3 materialPrice : ℚ)
    (pr : ProcessRates) (quantity : ℤ) : ℚ :=
  let materialCost := massKg * materialPrice
  let machiningTimeMin := pr.time_per_cm3.getD (1/2) * volumeCm3 + pr.setup_time.getD 15
  let laborCost := machiningTimeMin / 60 * pr.labor_rate.getD 16
  let toolingCost := pr.tooling_base.getD 50 / (quantity : ℚ)
  let directCost := materialCost + laborCost + toolingCost
  directCost + directCost * pr.overhead_rate.getD (1/4)

/-- Lines 117-123: the volume-discount multiplier, one tier only,
highest threshold first. -/
def cncDiscountMultiplier (quantity : ℤ) : ℚ :=
  if quantity ≥ 1000 then 7/10
  else if quantity ≥ 500 then 4/5
  else if quantity ≥ 100 then 9/10
  else 1

/-- `_estimate_cnc_cost` (lines 91-139).  `none` models the
`ZeroDivisionError` raised by `tooling_cost = tooling_base / quantity`
(line 105) when `quantity == 0`. -/
def estimateCncCost (massKg volumeCm3 materialPrice : ℚ)
    (pr : ProcessRates) (quantity : ℤ) : Option CostEstimate :=
  if quantity = 0 then none else
  let materialCost := massKg * materialPrice
  let machiningTimeMin := pr.time_per_cm3.getD (1/2) * volumeCm3 + pr.setup_time.getD 15
  let laborCost := machiningTimeMin / 60 * pr.labor_rate.getD 16
  let toolingCost := pr.tooling_base.getD 50 / (quantity : ℚ)
  let directCost := materialCost + laborCost + toolingCost
  let overheadCost := directCost * pr.overhead_rate.getD (1/4)
  let unitCost0 := directCost + overheadCost
  let unitCost :=
    if quantity ≥ 1000 then unitCost0 * (7/10)
    else if quantity ≥ 500 then unitCost0 * (4/5)
    else if quantity ≥ 100 then unitCost0 * (9/10)
    else unitCost0
  some { process := "cnc_milling",
         unit_cost := roundTo 2 unitCost,
         total_cost := roundTo 2 (unitCost * quantity),
         breakdown := [("material", roundTo 2 materialCost),
                       ("labor", roundTo 2 laborCost),
                       ("tooling_amortized", roundTo 2 toolingCost),
                       ("overhead", roundTo 2 overheadCost)],
         lead_time_days := "5-7",
         best_for := "Low to medium volume (1-1000 units)",
         quantity := quantity,
         mass_kg := roundTo 3 massKg }

/-! ## 3D printing (lines 141-178) -/

/-- Lines 144-162 of `_estimate_3d_printing_cost`: the unit cost (direct
cost plus overhead).  It does not mention the quantity. -/
def tdpUnitCost (massKg volumeCm3 materialPrice : ℚ) (pr : ProcessRates) : ℚ :=
  let materialCost := massKg * materialPrice * pr.support_factor.getD (7/5)
  let machineCost := pr.time_per_cm3.getD 2 * volumeCm3 / 60 * pr.machine_rate.getD 8
  let directCost := materialCost + machineCost
  directCost + directCost * pr.overhead_rate.getD (3/20)

/-- `_estimate_3d_printing_cost` (lines 141-178).  It contains no division
by a caller-supplied value, so it always returns. -/
def estimate3dPrintingCost (massKg volumeCm3 materialPrice : ℚ)
    (pr : ProcessRates) (quantity : ℤ) : CostEstimate :=
  let materialCost := massKg * materialPrice * pr.support_factor.getD (7/5)
  let printTimeMin := pr.time_per_cm3.getD 2 * volumeCm3
  let printTimeHr := printTimeMin / 60
  let machineCost := printTimeHr * pr.machine_rate.getD 8
  let directCost := materialCost + machineCost
  let overheadCost := directCost * pr.overhead_rate.getD (3/20)
  let unitCost := directCost + overheadCost
  { process := "3d_printing",
    unit_cost := roundTo 2 unitCost,
    total_cost := roundTo 2 (unitCost * quantity),
    breakdown := [("material", roundTo 2 materialCost),
                  ("machine_time", roundTo 2 machineCost),
                  ("overhead", roundTo 2 overheadCost)],
    lead_time_days := "3-5",
    best_for := "Prototypes and low volume (<100 units)",
    quantity := quantity,
    mass_kg := roundTo 3 massKg,
    print_time_hours := some (roundTo 1 printTimeHr) }

/-! ## Injection molding (lines 180-221) -/

/-- `_estimate_injection_molding_cost` (lines 180-221).  `none` models the
`ZeroDivisionError` from `3600 / cycle_time_sec` (line 187) when the cycle
time is zero, or from `mold_cost / quantity` (line 195) when `quantity == 0`.
(The rate table fixes `cycle_time` at 30 and the `.get` default is 30, so
the first division never actually raises through `estimate_cost`.) -/
def estimateInjectionMoldingCost (massKg volumeCm3 materialPrice : ℚ)
    (pr : ProcessRates) (quantity : ℤ) : Option CostEstimate :=
  let materialCost := massKg * materialPrice
  let cycleTimeSec := pr.cycle_time.getD 30
  if cycleTimeSec = 0 then none else
  let partsPerHour := 3600 / cycleTimeSec
  let laborCost := pr.labor_rate.getD 12 / partsPerHour
  if quantity = 0 then none else
  let moldCost := pr.mold_cost.getD 5000
  let moldCostPerPart := moldCost / (quantity : ℚ)
  let directCost := materialCost + laborCost + moldCostPerPart
  let overheadCost := directCost * pr.overhead_rate.getD (1/5)
  let unitCost := directCost + overheadCost
  some { process := "injection_molding",
         unit_cost := roundTo 2 unitCost,
         total_cost := roundTo 2 (unitCost * quantity),
         breakdown := [("material", roundTo 2 materialCost),
                       ("labor", roundTo 2 laborCost),
                       ("mold_amortized", roundTo 2 moldCostPerPart),
                       ("overhead", roundTo 2 overheadCost)],
         lead_time_days := "14-21 (including tooling)",
         best_for := "High volume (>1000 units)",
         quantity := quantity,
         mass_kg := roundTo 3 massKg,
         mold_cost_total := some moldCost }

/-! ## estimate_cost dispatch (lines 53-89) and compare_processes -/

/-- `CostEstimator.estimate_cost` (lines 53-89).  The final `else` of the
dispatch (lines 85-87) defaults to the CNC formula with whatever rate
record the process name resolved to. -/
def estimate_cost (p : DesignParams) (bb : BoundingBox) (quantity : ℤ) :
    Option CostEstimate :=
  let process := processOf p
  let volumeCm3 := volumeCm3Of bb
  let massKg := massOf p bb
  let materialPrice := materialPriceOf p
  let pr := processRates process
  if process = "cnc_milling" then
    estimateCncCost massKg volumeCm3 materialPrice pr quantity
  else if process = "3d_printing" then
    some (estimate3dPrintingCost massKg volumeCm3 materialPrice pr quantity)
  else if process = "injection_molding" then
    estimateInjectionMoldingCost massKg volumeCm3 materialPrice pr quantity
  else
    estimateCncCost massKg volumeCm3 materialPrice pr quantity

/-- Line 229-230: `temp_params = params.copy();
temp_params['manufacturing_process'] = process`. -/
def setProcess (p : DesignParams) (s : String) : DesignParams :=
  { p with manufacturing_process := some s }

/-- The sort key relation of `comparisons.sort(key=lambda x: x['unit_cost'])`
(line 235). -/
def costLE (a b : CostEstimate) : Prop := a.unit_cost ≤ b.unit_cost

instance : DecidableRel costLE :=
  fun a b => inferInstanceAs (Decidable (a.unit_cost ≤ b.unit_cost))

instance : IsTotal CostEstimate costLE :=
  ⟨fun a b => le_total a.unit_cost b.unit_cost⟩

instance : IsTrans CostEstimate costLE :=
  ⟨fun _ _ _ hab hbc => le_trans hab hbc⟩

/-- `CostEstimator.compare_processes` (lines 223-237): estimate each of the
three processes in list order with the same bounding box and quantity (an
exception anywhere aborts the whole call, hence the `Option` bind), then
`list.sort` — a stable ascending sort by `unit_cost`, embedded as insertion
sort, which is stable for the total preorder `costLE`. -/
def compare_processes (p : DesignParams) (bb : BoundingBox) (quantity : ℤ) :
    Option (List CostEstimate) := do
  let e1 ← estimate_cost (setProcess p "cnc_milling") bb quantity
  let e2 ← estimate_cost (setProcess p "3d_printing") bb quantity
  let e3 ← estimate_cost (setProcess p "injection_molding") bb quantity
  some (List.insertionSort costLE [e1, e2, e3])

/-! ## Specification-side list combinators and concrete test inputs -/

/-- All unordered pairs of a list, in the nested-loop order of
`for i, pos1 in enumerate(positions): for pos2 in positions[i+1:]`. -/
def unorderedPairs {α : Type} : List α → List (α × α)
  | [] => []
  | x :: xs => (xs.map fun y => (x, y)) ++ unorderedPairs xs

/-- Concrete record: material with no DFM rule entry. -/
def pTitanium : DesignParams := { material := some "titanium" }

/-- Concrete record: defaults (aluminum, CNC) with wall thickness 1.0 mm,
below the 1.5 mm rule minimum. -/
def pWallThin : DesignParams :=
  { primary_geometry := some { wall_thickness := some 1 } }

/-- Concrete record: defaults with a mounting pattern whose first two holes
are 3 mm apart (below the 5 mm minimum spacing) and whose third hole is far
from both and from every edge. -/
def pSpacing : DesignParams :=
  { mounting_pattern := some { positions := [(0, 0), (3, 0), (40, 40)] } }

/-- Concrete record: process 3d_printing, otherwise defaults. -/
def pPrint : DesignParams := { manufacturing_process := some "3d_printing" }

/-- Concrete record: process sheet_metal, otherwise defaults. -/
def pSheet : DesignParams := { manufacturing_process := some "sheet_metal" }

/-- Concrete bounding box of volume 100000 mm³ (100 cm³). -/
def bb100 : BoundingBox := { volume := some 100000 }

/-- Concrete bounding box of volume 0. -/
def bb0 : BoundingBox := { volume := some 0 }

/-- The 3D-printing estimate for the zero-volume box at quantity 100. -/
def estPrint0 : CostEstimate :=
  { process := "3d_printing", unit_cost := 0, total_cost := 0,
    breakdown := [("material", 0), ("machine_time", 0), ("overhead", 0)],
    lead_time_days := "3-5", best_for := "Prototypes and low volume (<100 units)",
    quantity := 100, mass_kg := 0, print_time_hours := some 0 }

/-- The CNC estimate for the zero-volume box at quantity 100. -/
def estCnc0 : CostEstimate :=
  { process := "cnc_milling", unit_cost := 253/50, total_cost := 2025/4,
    breakdown := [("material", 0), ("labor", 4), ("tooling_amortized", 1/2),
                  ("overhead", 28/25)],
    lead_time_days := "5-7", best_for := "Low to medium volume (1-1000 units)",
    quantity := 100, mass_kg := 0 }

/-- The injection-molding estimate for the zero-volume box at quantity 100. -/
def estIm0 : CostEstimate :=
  { process := "injection_molding", unit_cost := 1503/25, total_cost := 6012,
    breakdown := [("material", 0), ("labor", 1/10), ("mold_amortized", 50),
                  ("overhead", 501/50)],
    lead_time_days := "14-21 (including tooling)",
    best_for := "High volume (>1000 units)",
    quantity := 100, mass_kg := 0, mold_cost_total := some 5000 }

/-! ## Helper lemmas -/

/-- Justification for `distLtB`: it decides exactly the source's
`math.sqrt(dx**2 + dy**2) < s` comparison, read over the reals. -/
lemma distLtB_eq_sqrt_lt (p q : ℚ × ℚ) (s : ℚ) :
    distLtB p q s = true ↔
      Real.sqrt (((p.1 - q.1)^2 + (p.2 - q.2)^2 : ℚ) : ℝ) < (s : ℝ) := by
  unfold distLtB
  rw [decide_eq_true_iff]
  constructor
  · rintro ⟨hs, hd⟩
    have hs' : (0 : ℝ) < (s : ℝ) := by exact_mod_cast hs
    rw [Real.sqrt_lt' hs']
    exact_mod_cast hd
  · intro h
    have hs' : (0 : ℝ) < (s : ℝ) := lt_of_le_of_lt (Real.sqrt_nonneg _) h
    rw [Real.sqrt_lt' hs'] at h
    exact ⟨by exact_mod_cast hs', by exact_mod_cast h⟩

lemma truncInt_intCast (n : ℤ) : truncInt (n : ℚ) = n := by
  unfold truncInt
  split <;> simp

lemma confidenceOf_eq (i w : ℕ) :
    confidenceOf i w = max 0 (min 1 (1 - (i : ℚ)/5 - (w : ℚ)/10)) := by
  have h1 : ∀ c : ℚ, (if i ≠ 0 then c - (i : ℚ) * (1/5) else c) = c - (i : ℚ)/5 := by
    intro c
    by_cases hi : i = 0
    · simp [hi]
    · simp only [hi, ne_eq, not_false_iff, if_true]
      ring
  have h2 : ∀ c : ℚ, (if w ≠ 0 then c - (w : ℚ) * (1/10) else c) = c - (w : ℚ)/10 := by
    intro c
    by_cases hw : w = 0
    · simp [hw]
    · simp only [hw, ne_eq, not_false_iff, if_true]
      ring
  unfold confidenceOf
  simp only [h1, h2]

lemma confidenceOf_mul_100 (i w : ℕ) :
    confidenceOf i w * 100
      = ((max 0 (min 100 (100 - 20*(i:ℤ) - 10*(w:ℤ))) : ℤ) : ℚ) := by
  rw [confidenceOf_eq,
      max_mul_of_nonneg _ _ (by norm_num : (0:ℚ) ≤ 100),
      min_mul_of_nonneg _ _ (by norm_num : (0:ℚ) ≤ 100)]
  push_cast
  ring_nf

lemma confidenceOf_nonneg (i w : ℕ) : 0 ≤ confidenceOf i w := by
  rw [confidenceOf_eq]; exact le_max_left 0 _

lemma confidenceOf_le_one (i w : ℕ) : confidenceOf i w ≤ 1 := by
  rw [confidenceOf_eq]
  exact max_le (by norm_num) (min_le_left 1 _)

lemma filterMap_ite {α β : Type} (c : α → Bool) (g : α → β) (l : List α) :
    l.filterMap (fun a => if c a then some (g a) else none) = (l.filter c).map g := by
  induction l with
  | nil => rfl
  | cons x xs ih =>
      by_cases hx : c x <;>
        simp [List.filterMap_cons, List.filter_cons, hx, ih]

lemma spacingWarnings_eq (l : List (ℚ × ℚ)) (s : ℚ) :
    spacingWarnings l s
      = ((unorderedPairs l).filter fun q => distLtB q.1 q.2 s).map
          fun q => Finding.holeSpacing q.1 q.2 s := by
  induction l with
  | nil => rfl
  | cons p rest ih =>
      rw [spacingWarnings, unorderedPairs, List.filter_append, List.map_append, ih,
        List.filter_map, List.map_map, filterMap_ite (fun q => distLtB p q s)
          (fun q => Finding.holeSpacing p q s) rest]
      rfl

lemma spacingWarnings_mem {l : List (ℚ × ℚ)} {s : ℚ} {f : Finding}
    (hf : f ∈ spacingWarnings l s) : f.isHoleSpacing = true := by
  rw [spacingWarnings_eq] at hf
  obtain ⟨q, _, rfl⟩ := List.mem_map.1 hf
  rfl

lemma edgeCheck_mem {pos : ℚ × ℚ} {a b c : ℚ} {f : Finding}
    (hf : f ∈ edgeCheck pos a b c) : f.isEdge = true := by
  unfold edgeCheck at hf
  rcases List.mem_append.1 hf with h | h <;>
    [skip; skip] <;> split at h <;> simp at h <;> subst h <;> rfl

lemma mountingCheck_issues_mem {r : DFMRule} {g : GeometryParams}
    {mp : Option MountingPattern} {f : Finding}
    (hf : f ∈ (mountingCheck r g mp).1) :
    ∃ d m : ℚ, f = Finding.holeDiameterTooSmall d m := by
  cases mp with
  | none => simp [mountingCheck] at hf
  | some hp =>
      simp only [mountingCheck] at hf
      split at hf <;> simp at hf
      subst hf
      exact ⟨_, _, rfl⟩

lemma mountingCheck_warnings_mem {r : DFMRule} {g : GeometryParams}
    {mp : Option MountingPattern} {f : Finding}
    (hf : f ∈ (mountingCheck r g mp).2) :
    f.isHoleSpacing = true ∨ f.isEdge = true := by
  cases mp with
  | none => simp [mountingCheck] at hf
  | some hp =>
      simp only [mountingCheck] at hf
      rcases List.mem_append.1 hf with h | h
      · exact Or.inl (spacingWarnings_mem h)
      · obtain ⟨pos, _, hmem⟩ := List.mem_flatMap.1 h
        exact Or.inr (edgeCheck_mem hmem)

/-- Unfolding of `validate` on the rules-found path. -/
lemma validate_unfold (p : DesignParams) (r : DFMRule)
    (h : dfmRules (materialOf p) (processOf p) = some r) :
    validate p
      = { valid := ((wallCheck r (wallOf p)).1
              ++ (mountingCheck r (geometryOf p) p.mounting_pattern).1).length == 0,
          issues := (wallCheck r (wallOf p)).1
              ++ (mountingCheck r (geometryOf p) p.mounting_pattern).1,
          warnings := (wallCheck r (wallOf p)).2.1
              ++ (mountingCheck r (geometryOf p) p.mounting_pattern).2,
          suggestions := (wallCheck r (wallOf p)).2.2,
          confidence := confidenceOf
              ((wallCheck r (wallOf p)).1
                ++ (mountingCheck r (geometryOf p) p.mounting_pattern).1).length
              ((wallCheck r (wallOf p)).2.1
                ++ (mountingCheck r (geometryOf p) p.mounting_pattern).2).length,
          dfm_score := some (truncInt (confidenceOf
              ((wallCheck r (wallOf p)).1
                ++ (mountingCheck r (geometryOf p) p.mounting_pattern).1).length
              ((wallCheck r (wallOf p)).2.1
                ++ (mountingCheck r (geometryOf p) p.mounting_pattern).2).length * 100)) } := by
  unfold validate
  rw [h]

/-! ## C4: the no-rules early return -/

/-- C4: for every parameter record whose resolved (material, process) pair
has no rule-table entry, `validate` returns immediately with valid = true,
empty issues and suggestions, exactly the one "no rules found" warning,
confidence = 0.5, and (being a total function of its input) performs no
further checks and does not raise.  The returned dict has no `dfm_score`
key (`none`). -/
theorem validate_no_rules_branch (p : DesignParams)
    (h : dfmRules (materialOf p) (processOf p) = none) :
    validate p
      = { valid := true, issues := [],
          warnings := [Finding.noRulesFound (materialOf p) (processOf p)],
          suggestions := [], confidence := 1/2, dfm_score := none } := by
  unfold validate
  rw [h]

/-- Witness for C4 at the concrete record {material: "titanium"}:
titanium has no rule entry for any process. -/
theorem validate_no_rules_branch_witness :
    dfmRules (materialOf { material := some "titanium" })
        (processOf { material := some "titanium" }) = none
      ∧ validate { material := some "titanium" }
        = { valid := true, issues := [],
            warnings := [Finding.noRulesFound "titanium" "cnc_milling"],
            suggestions := [], confidence := 1/2, dfm_score := none } :=
  ⟨by decide, validate_no_rules_branch { material := some "titanium" } (by decide)⟩

/-! ## C1: confidence bounds and the dfm_score field -/

/-- Counterexample to C1 as stated: on the branch where no (material,
process) rule set is found, the returned dict has **no** `dfm_score` key at
all (modelled as `none`), so "every return path contains a dfm_score field"
is false. -/
theorem validate_noRules_dfm_score_missing :
    (validate { material := some "titanium" }).dfm_score = none := by
  decide

/-- C1 as amended: for every parameter record, the confidence returned by
`validate` lies in [0, 1]; whenever the result carries a `dfm_score` field
(that is, on every return path except the no-rules early return), that
score equals confidence × 100 exactly — an integer, so `int()` truncation
and `round()` agree on it — and lies in [0, 100]. -/
theorem validate_confidence_dfm_score (p : DesignParams) :
    0 ≤ (validate p).confidence ∧ (validate p).confidence ≤ 1 ∧
      ∀ s : ℤ, (validate p).dfm_score = some s →
        (s : ℚ) = (validate p).confidence * 100 ∧ 0 ≤ s ∧ s ≤ 100 := by
  unfold validate
  cases h : dfmRules (materialOf p) (processOf p) with
  | none =>
      refine ⟨by norm_num, by norm_num, ?_⟩
      intro s hs
      simp at hs
  | some rules =>
      simp only []
      refine ⟨confidenceOf_nonneg _ _, confidenceOf_le_one _ _, ?_⟩
      intro s hs
      simp only [Option.some.injEq] at hs
      subst hs
      rw [confidenceOf_mul_100, truncInt_intCast]
      refine ⟨rfl, ?_, ?_⟩
      · exact le_max_left 0 _
      · exact max_le (by norm_num) (le_trans (min_le_left _ _) (by norm_num))

/-- Witness for C1 at the all-defaults record (aluminum, CNC, wall 2.0):
confidence 1, dfm_score 100. -/
theorem validate_confidence_dfm_score_witness :
    0 ≤ (validate {}).confidence ∧ (validate {}).confidence ≤ 1 ∧
      ((100 : ℚ) = (validate {}).confidence * 100 ∧ (0:ℤ) ≤ 100 ∧ (100:ℤ) ≤ 100) := by
  have h : (validate {}).dfm_score = some 100 := by
    simp only [validate, materialOf, processOf, dfmRules, wallCheck,
      mountingCheck, geometryOf, wallOf, confidenceOf, truncInt, Option.getD]
    norm_num
  exact ⟨(validate_confidence_dfm_score {}).1,
         (validate_confidence_dfm_score {}).2.1,
         (validate_confidence_dfm_score {}).2.2 100 h⟩

/-! ## C3: the wall-thickness branch chain -/

/-- C3: when a rule set is found, the three wall-thickness branches are
mutually exclusive and evaluated in priority order.  Below the minimum:
exactly one critical wall-thickness issue, no wall-thickness warning, no
suggestion, and valid = false.  Else above the maximum: no wall-thickness
issue, exactly one wall-thickness warning, no suggestion.  Else outside the
recommended band: only the one non-blocking suggestion.  In every case at
most one of the three wall findings is produced per call. -/
theorem validate_wall_thickness_branches (p : DesignParams) (r : DFMRule)
    (h : dfmRules (materialOf p) (processOf p) = some r) :
    (wallOf p < r.min_wall_thickness.getD 1 →
        (validate p).issues.countP Finding.isWallThin = 1 ∧
        (validate p).warnings.countP Finding.isWallThick = 0 ∧
        (validate p).suggestions = [] ∧
        (validate p).valid = false) ∧
    (¬ wallOf p < r.min_wall_thickness.getD 1 →
      wallOf p > r.max_wall_thickness.getD 10 →
        (validate p).issues.countP Finding.isWallThin = 0 ∧
        (validate p).warnings.countP Finding.isWallThick = 1 ∧
        (validate p).suggestions = []) ∧
    (¬ wallOf p < r.min_wall_thickness.getD 1 →
      ¬ wallOf p > r.max_wall_thickness.getD 10 →
      (wallOf p < (r.recommended_wall_thickness.getD (2, 3)).1 ∨
        wallOf p > (r.recommended_wall_thickness.getD (2, 3)).2) →
        (validate p).issues.countP Finding.isWallThin = 0 ∧
        (validate p).warnings.countP Finding.isWallThick = 0 ∧
        (validate p).suggestions
          = [Finding.wallRecommended (r.recommended_wall_thickness.getD (2, 3)).1
              (r.recommended_wall_thickness.getD (2, 3)).2 (wallOf p)]) ∧
    (validate p).issues.countP Finding.isWallThin
      + (validate p).warnings.countP Finding.isWallThick
      + (validate p).suggestions.length ≤ 1 := by
  have hcntI : (mountingCheck r (geometryOf p) p.mounting_pattern).1.countP
      Finding.isWallThin = 0 := by
    refine List.countP_eq_zero.2 fun f hf => ?_
    obtain ⟨d, m, rfl⟩ := mountingCheck_issues_mem hf
    simp [Finding.isWallThin]
  have hcntW : (mountingCheck r (geometryOf p) p.mounting_pattern).2.countP
      Finding.isWallThick = 0 := by
    refine List.countP_eq_zero.2 fun f hf => ?_
    rcases mountingCheck_warnings_mem hf with hs | he
    · cases f <;> simp_all [Finding.isHoleSpacing, Finding.isWallThick]
    · cases f <;> simp_all [Finding.isEdge, Finding.isWallThick]
  rw [validate_unfold p r h]
  simp only [wallCheck]
  split_ifs with h1 h2 h3
  · refine ⟨fun _ => ?_, fun hn _ => absurd h1 hn, fun hn _ _ => absurd h1 hn, ?_⟩ <;>
      simp [List.countP_append, List.countP_cons, hcntI, hcntW,
        Finding.isWallThin, List.length_append]
  · refine ⟨fun hw => absurd hw h1, fun _ _ => ?_, fun _ hn _ => absurd h2 hn, ?_⟩ <;>
      simp [List.countP_append, List.countP_cons, hcntI, hcntW,
        Finding.isWallThick]
  · refine ⟨fun hw => absurd hw h1, fun _ hw => absurd hw h2, fun _ _ _ => ?_, ?_⟩ <;>
      simp [List.countP_append, List.countP_cons, hcntI, hcntW]
  · refine ⟨fun hw => absurd hw h1, fun _ hw => absurd hw h2,
      fun _ _ hw => absurd hw h3, ?_⟩
    simp [List.countP_append, hcntI, hcntW]

/-- Witness for C3 at wall thickness 1.0 mm under the aluminum CNC rule
(minimum 1.5 mm). -/
theorem validate_wall_thickness_branches_witness :
    wallOf pWallThin < 3/2 ∧
    ((validate pWallThin).issues.countP Finding.isWallThin = 1 ∧
      (validate pWallThin).warnings.countP Finding.isWallThick = 0 ∧
      (validate pWallThin).suggestions = [] ∧
      (validate pWallThin).valid = false) := by
  have h : dfmRules (materialOf pWallThin) (processOf pWallThin)
      = some { min_wall_thickness := some (3/2),
               recommended_wall_thickness := some (2, 3),
               max_wall_thickness := some 8,
               min_hole_diameter := some 3,
               min_hole_spacing := some 5,
               min_edge_distance := some 3 } := by rfl
  have hw : wallOf pWallThin < 3/2 := by
    norm_num [wallOf, geometryOf, pWallThin]
  exact ⟨hw, (validate_wall_thickness_branches pWallThin _ h).1 hw⟩

/-! ## C5: pairwise hole-spacing warnings -/

/-- C5: with a mounting pattern present and a rule set found, the spacing
warnings in the result are exactly one warning per unordered pair of hole
positions closer than the rule's minimum spacing, in nested-loop order,
with no deduplication and no early exit; and the confidence equals
1 − 0.2·issues − 0.1·warnings clamped to [0, 1], so each spacing warning
decreases it by 0.1 down to the clamp at 0. -/
theorem validate_hole_spacing_pairs (p : DesignParams) (r : DFMRule)
    (hp : MountingPattern)
    (h : dfmRules (materialOf p) (processOf p) = some r)
    (hmp : p.mounting_pattern = some hp) :
    (validate p).warnings.filter Finding.isHoleSpacing
        = ((unorderedPairs hp.positions).filter
            fun q => distLtB q.1 q.2 (r.min_hole_spacing.getD 5)).map
            (fun q => Finding.holeSpacing q.1 q.2 (r.min_hole_spacing.getD 5)) ∧
    (validate p).confidence
        = max 0 (min 1 (1 - ((validate p).issues.length : ℚ)/5
            - ((validate p).warnings.length : ℚ)/10)) := by
  rw [validate_unfold p r h]
  dsimp only
  constructor
  · rw [List.filter_append]
    have hwall : (wallCheck r (wallOf p)).2.1.filter Finding.isHoleSpacing = [] := by
      simp only [wallCheck]
      split_ifs <;> simp [Finding.isHoleSpacing]
    rw [hwall]
    simp only [mountingCheck, hmp]
    rw [List.filter_append]
    have hsp : (spacingWarnings hp.positions (r.min_hole_spacing.getD 5)).filter
        Finding.isHoleSpacing
          = spacingWarnings hp.positions (r.min_hole_spacing.getD 5) :=
      List.filter_eq_self.2 fun f hf => spacingWarnings_mem hf
    have hedge : (hp.positions.flatMap fun pos =>
        edgeCheck pos (r.min_edge_distance.getD 3 * hp.hole_diameter.getD (9/2))
          ((geometryOf p).base_length.getD 100)
          ((geometryOf p).base_width.getD 80)).filter Finding.isHoleSpacing = [] := by
      refine List.filter_eq_nil_iff.2 fun f hf => ?_
      obtain ⟨pos, _, hmem⟩ := List.mem_flatMap.1 hf
      have := edgeCheck_mem hmem
      cases f <;> simp_all [Finding.isEdge, Finding.isHoleSpacing]
    rw [hsp, hedge, List.append_nil, List.nil_append, spacingWarnings_eq]
  · rw [confidenceOf_eq]

/-- Witness for C5: holes at (0,0), (3,0), (40,40) under the aluminum CNC
rule (minimum spacing 5): exactly the pair ((0,0),(3,0)) is offending and
produces exactly one spacing warning. -/
theorem validate_hole_spacing_pairs_witness :
    pSpacing.mounting_pattern
        = some { positions := [(0, 0), (3, 0), (40, 40)] } ∧
    (validate pSpacing).warnings.filter Finding.isHoleSpacing
        = [Finding.holeSpacing (0, 0) (3, 0) 5] := by
  have h : dfmRules (materialOf pSpacing) (processOf pSpacing)
      = some { min_wall_thickness := some (3/2),
               recommended_wall_thickness := some (2, 3),
               max_wall_thickness := some 8,
               min_hole_diameter := some 3,
               min_hole_spacing := some 5,
               min_edge_distance := some 3 } := by rfl
  have hmp : pSpacing.mounting_pattern
      = some { positions := [(0, 0), (3, 0), (40, 40)] } := by rfl
  have hfil := (validate_hole_spacing_pairs pSpacing _ _ h hmp).1
  refine ⟨hmp, ?_⟩
  rw [hfil]
  simp only [unorderedPairs, distLtB, Option.getD]
  norm_num

/-! ## C6: edge-distance warnings -/

/-- C6: with a mounting pattern present and a rule set found, the minimum
edge clearance is the rule's edge-distance multiplier times the hole
diameter, and the edge warnings in the result are exactly, per hole in
order, one warning if its x-coordinate is within that clearance of 0 or of
base_length, and independently one warning if its y-coordinate is within
that clearance of 0 or of base_width — hence at most two per hole. -/
theorem validate_edge_distance (p : DesignParams) (r : DFMRule)
    (hp : MountingPattern)
    (h : dfmRules (materialOf p) (processOf p) = some r)
    (hmp : p.mounting_pattern = some hp) :
    (validate p).warnings.filter Finding.isEdge
        = hp.positions.flatMap (fun pos =>
            (if pos.1 < r.min_edge_distance.getD 3 * hp.hole_diameter.getD (9/2)
                ∨ pos.1 > (geometryOf p).base_length.getD 100
                    - r.min_edge_distance.getD 3 * hp.hole_diameter.getD (9/2)
              then [Finding.tooCloseToEdge pos
                      (r.min_edge_distance.getD 3 * hp.hole_diameter.getD (9/2))]
              else [])
            ++ (if pos.2 < r.min_edge_distance.getD 3 * hp.hole_diameter.getD (9/2)
                ∨ pos.2 > (geometryOf p).base_width.getD 80
                    - r.min_edge_distance.getD 3 * hp.hole_diameter.getD (9/2)
              then [Finding.tooCloseToEdge pos
                      (r.min_edge_distance.getD 3 * hp.hole_diameter.getD (9/2))]
              else [])) ∧
    ∀ pos ∈ hp.positions,
      (edgeCheck pos (r.min_edge_distance.getD 3 * hp.hole_diameter.getD (9/2))
          ((geometryOf p).base_length.getD 100)
          ((geometryOf p).base_width.getD 80)).length ≤ 2 := by
  rw [validate_unfold p r h]
  dsimp only
  constructor
  · rw [List.filter_append]
    have hwall : (wallCheck r (wallOf p)).2.1.filter Finding.isEdge = [] := by
      simp only [wallCheck]
      split_ifs <;> simp [Finding.isEdge]
    rw [hwall]
    simp only [mountingCheck, hmp]
    rw [List.filter_append]
    have hsp : (spacingWarnings hp.positions (r.min_hole_spacing.getD 5)).filter
        Finding.isEdge = [] := by
      refine List.filter_eq_nil_iff.2 fun f hf => ?_
      have := spacingWarnings_mem hf
      cases f <;> simp_all [Finding.isEdge, Finding.isHoleSpacing]
    have hedge : (hp.positions.flatMap fun pos =>
        edgeCheck pos (r.min_edge_distance.getD 3 * hp.hole_diameter.getD (9/2))
          ((geometryOf p).base_length.getD 100)
          ((geometryOf p).base_width.getD 80)).filter Finding.isEdge
        = hp.positions.flatMap fun pos =>
            edgeCheck pos (r.min_edge_distance.getD 3 * hp.hole_diameter.getD (9/2))
              ((geometryOf p).base_length.getD 100)
              ((geometryOf p).base_width.getD 80) := by
      refine List.filter_eq_self.2 fun f hf => ?_
      obtain ⟨pos, _, hmem⟩ := List.mem_flatMap.1 hf
      exact edgeCheck_mem hmem
    rw [hsp, hedge]
    simp only [List.nil_append]
    rfl
  · intro pos _
    unfold edgeCheck
    split_ifs <;> simp

/-- Witness for C6: holes at (0,0), (3,0), (40,40), clearance 3 × 4.5 =
13.5 on a default 100 × 80 base: the first two holes each yield an x- and a
y-warning, the third none; each hole yields at most two. -/
theorem validate_edge_distance_witness :
    pSpacing.mounting_pattern
        = some { positions := [(0, 0), (3, 0), (40, 40)] } ∧
    (validate pSpacing).warnings.filter Finding.isEdge
        = [Finding.tooCloseToEdge (0, 0) (27/2), Finding.tooCloseToEdge (0, 0) (27/2),
           Finding.tooCloseToEdge (3, 0) (27/2), Finding.tooCloseToEdge (3, 0) (27/2)] ∧
    (edgeCheck (0, 0) (27/2) 100 80).length ≤ 2 := by
  have h : dfmRules (materialOf pSpacing) (processOf pSpacing)
      = some { min_wall_thickness := some (3/2),
               recommended_wall_thickness := some (2, 3),
               max_wall_thickness := some 8,
               min_hole_diameter := some 3,
               min_hole_spacing := some 5,
               min_edge_distance := some 3 } := by rfl
  have hmp : pSpacing.mounting_pattern
      = some { positions := [(0, 0), (3, 0), (40, 40)] } := by rfl
  have hth := validate_edge_distance pSpacing _ _ h hmp
  refine ⟨hmp, ?_, ?_⟩
  · rw [hth.1]
    norm_num [geometryOf, pSpacing]
  · have h2 := hth.2 (0, 0) (by simp)
    norm_num [geometryOf, pSpacing] at h2
    exact h2

/-! ## C2: divisions by quantity are not guarded -/

/-- Counterexample to C2 as stated: at the default parameter record (CNC
milling) with quantity = 0, `estimate_cost` raises `ZeroDivisionError` at
`tooling_cost = tooling_base / quantity` (modelled as `none`) instead of
returning a result record. -/
theorem estimate_cost_quantity_zero_raises :
    estimate_cost {} bb100 0 = none := by rfl

/-- C2 as amended: `estimate_cost` returns a result record (does not
raise) whenever quantity ≠ 0, and on the 3D-printing path even for
quantity = 0; the divisions by quantity in the CNC and injection-molding
formulas are unguarded and raise at quantity = 0, while the cycle-time
divisor always resolves to 30 from the rate table and never raises. -/
theorem estimate_cost_total (p : DesignParams) (bb : BoundingBox) (q : ℤ)
    (hq : q ≠ 0 ∨ processOf p = "3d_printing") :
    (estimate_cost p bb q).isSome = true := by
  simp only [estimate_cost]
  split_ifs with h1 h2 h3
  · rcases hq with hq | hpr
    · simp [estimateCncCost, hq]
    · exact absurd (h1.symm.trans hpr) (by decide)
  · simp
  · rcases hq with hq | hpr
    · rw [h3]
      simp [estimateInjectionMoldingCost, processRates, hq]
    · exact absurd (h3.symm.trans hpr) (by decide)
  · rcases hq with hq | hpr
    · simp [estimateCncCost, hq]
    · exact absurd hpr h2

/-- Witness for C2 (amended) at the default record, volume 100000 mm³,
quantity 5. -/
theorem estimate_cost_total_witness :
    ((5 : ℤ) ≠ 0 ∨ processOf {} = "3d_printing") ∧
      (estimate_cost {} bb100 5).isSome = true :=
  ⟨Or.inl (by norm_num),
   estimate_cost_total {} bb100 5 (Or.inl (by norm_num))⟩

/-! ## C7: CNC volume-discount tiers -/

/-- C7: on the CNC path with nonzero quantity, the returned unit cost is
the direct-plus-overhead unit cost multiplied by exactly one discount
tier — 0.70 for quantity ≥ 1000, else 0.80 for ≥ 500, else 0.90 for ≥ 100,
else 1 — and in particular the multiplier at quantity = 1000 is 0.70.
(Arithmetic is exact rational, so "within floating rounding" is exact.) -/
theorem cnc_volume_discount_tiers (p : DesignParams) (bb : BoundingBox)
    (q : ℤ) (hpr : processOf p = "cnc_milling") (hq : q ≠ 0) :
    ∃ e, estimate_cost p bb q = some e ∧
      e.unit_cost = roundTo 2 (cncUndiscountedUnitCost (massOf p bb)
          (volumeCm3Of bb) (materialPriceOf p) (processRates "cnc_milling") q
          * cncDiscountMultiplier q) ∧
      cncDiscountMultiplier q
        = (if q ≥ 1000 then 7/10 else if q ≥ 500 then 4/5
            else if q ≥ 100 then 9/10 else 1) ∧
      (q = 1000 → cncDiscountMultiplier q = 7/10) := by
  simp only [estimate_cost]
  rw [hpr]
  simp only [if_pos rfl]
  simp only [estimateCncCost, if_neg hq]
  refine ⟨_, rfl, ?_, rfl, fun h => by rw [h]; rfl⟩
  simp only [cncUndiscountedUnitCost, cncDiscountMultiplier]
  split_ifs <;> ring_nf

/-- Witness for C7 at the default record, volume 100000 mm³,
quantity 1000. -/
theorem cnc_volume_discount_tiers_witness :
    processOf {} = "cnc_milling" ∧ (1000 : ℤ) ≠ 0 ∧
    ∃ e, estimate_cost {} bb100 1000 = some e ∧
      e.unit_cost = roundTo 2 (cncUndiscountedUnitCost (massOf {} bb100)
          (volumeCm3Of bb100) (materialPriceOf {}) (processRates "cnc_milling") 1000
          * cncDiscountMultiplier 1000) ∧
      cncDiscountMultiplier 1000
        = (if (1000 : ℤ) ≥ 1000 then 7/10 else if (1000 : ℤ) ≥ 500 then 4/5
            else if (1000 : ℤ) ≥ 100 then 9/10 else 1) ∧
      ((1000 : ℤ) = 1000 → cncDiscountMultiplier 1000 = 7/10) :=
  ⟨rfl, by norm_num,
   cnc_volume_discount_tiers {} bb100 1000 rfl (by norm_num)⟩

/-! ## C9: 3D printing has no quantity discount -/

/-- Counterexample to C9 as stated: on the 3D-printing path the returned
record also echoes the quantity in its `quantity` field, so `total_cost` is
not the only field depending on the quantity — here quantities 1 and 2
yield the same `unit_cost` but records differing in `quantity`. -/
theorem tdp_quantity_field_cex :
    (estimate_cost pPrint bb100 1).map CostEstimate.unit_cost
        = (estimate_cost pPrint bb100 2).map CostEstimate.unit_cost ∧
      (estimate_cost pPrint bb100 1).map CostEstimate.quantity
        ≠ (estimate_cost pPrint bb100 2).map CostEstimate.quantity := by
  constructor
  · rfl
  · intro h
    simp only [estimate_cost, pPrint] at h
    revert h
    decide

/-- C9 as amended: for a fixed parameter record resolving to 3d_printing
and a fixed bounding box, `estimate_cost` always returns, the unit cost
(and the breakdown, mass, print time and process label) is the same for
every quantity, and only `total_cost` — the pre-rounding unit cost times
the quantity, rounded to 2 decimals — and the echoed `quantity` field
depend on the quantity. -/
theorem tdp_unit_cost_quantity_independent (p : DesignParams)
    (bb : BoundingBox) (h3 : processOf p = "3d_printing") (q1 q2 : ℤ) :
    ∃ e1 e2, estimate_cost p bb q1 = some e1 ∧ estimate_cost p bb q2 = some e2 ∧
      e1.unit_cost = e2.unit_cost ∧ e1.breakdown = e2.breakdown ∧
      e1.process = e2.process ∧ e1.mass_kg = e2.mass_kg ∧
      e1.print_time_hours = e2.print_time_hours ∧
      e1.unit_cost = roundTo 2 (tdpUnitCost (massOf p bb) (volumeCm3Of bb)
          (materialPriceOf p) (processRates "3d_printing")) ∧
      e1.total_cost = roundTo 2 (tdpUnitCost (massOf p bb) (volumeCm3Of bb)
          (materialPriceOf p) (processRates "3d_printing") * q1) ∧
      e1.quantity = q1 := by
  simp only [estimate_cost]
  rw [h3]
  simp only [if_neg (by decide : ¬ ("3d_printing" = "cnc_milling")), if_pos rfl]
  exact ⟨_, _, rfl, rfl, rfl, rfl, rfl, rfl, rfl, rfl, rfl, rfl⟩

/-- Witness for C9 (amended) at the 3d_printing record, volume 100000 mm³,
quantities 1 and 2. -/
theorem tdp_unit_cost_quantity_independent_witness :
    processOf pPrint = "3d_printing" ∧
    ∃ e1 e2, estimate_cost pPrint bb100 1 = some e1 ∧
      estimate_cost pPrint bb100 2 = some e2 ∧
      e1.unit_cost = e2.unit_cost ∧ e1.breakdown = e2.breakdown ∧
      e1.process = e2.process ∧ e1.mass_kg = e2.mass_kg ∧
      e1.print_time_hours = e2.print_time_hours ∧
      e1.unit_cost = roundTo 2 (tdpUnitCost (massOf pPrint bb100)
          (volumeCm3Of bb100) (materialPriceOf pPrint) (processRates "3d_printing")) ∧
      e1.total_cost = roundTo 2 (tdpUnitCost (massOf pPrint bb100)
          (volumeCm3Of bb100) (materialPriceOf pPrint) (processRates "3d_printing") * 1) ∧
      e1.quantity = 1 :=
  ⟨rfl, tdp_unit_cost_quantity_independent pPrint bb100 rfl 1 2⟩

/-! ## C10: sheet_metal falls through to the CNC formula -/

/-- C10: a record whose process resolves to "sheet_metal" (present in the
rate table but absent from the dispatch) falls through to the CNC-milling
formula applied with sheet_metal's labor_rate 14.0 and overhead_rate 0.22
and the CNC literal defaults for the missing time_per_cm3, setup_time and
tooling_base keys, and the returned record is labeled "cnc_milling". -/
theorem sheet_metal_falls_through_to_cnc (p : DesignParams)
    (bb : BoundingBox) (q : ℤ) (hpr : processOf p = "sheet_metal")
    (hq : q ≠ 0) :
    estimate_cost p bb q
        = estimateCncCost (massOf p bb) (volumeCm3Of bb) (materialPriceOf p)
            (processRates "sheet_metal") q ∧
    (∃ e, estimate_cost p bb q = some e ∧ e.process = "cnc_milling") ∧
    (processRates "sheet_metal").labor_rate.getD 16 = 14 ∧
    (processRates "sheet_metal").overhead_rate.getD (1/4) = 11/50 ∧
    (processRates "sheet_metal").time_per_cm3 = none ∧
    (processRates "sheet_metal").setup_time = none ∧
    (processRates "sheet_metal").tooling_base = none := by
  have hdisp : estimate_cost p bb q
      = estimateCncCost (massOf p bb) (volumeCm3Of bb) (materialPriceOf p)
          (processRates "sheet_metal") q := by
    simp only [estimate_cost]
    rw [hpr]
    simp only [if_neg (by decide : ¬ ("sheet_metal" = "cnc_milling")),
      if_neg (by decide : ¬ ("sheet_metal" = "3d_printing")),
      if_neg (by decide : ¬ ("sheet_metal" = "injection_molding"))]
  refine ⟨hdisp, ?_, rfl, rfl, rfl, rfl, rfl⟩
  rw [hdisp]
  simp only [estimateCncCost, if_neg hq]
  exact ⟨_, rfl, rfl⟩

/-- Witness for C10 at the sheet_metal record, volume 100000 mm³,
quantity 10. -/
theorem sheet_metal_falls_through_to_cnc_witness :
    processOf pSheet = "sheet_metal" ∧ (10 : ℤ) ≠ 0 ∧
    (estimate_cost pSheet bb100 10
        = estimateCncCost (massOf pSheet bb100) (volumeCm3Of bb100)
            (materialPriceOf pSheet) (processRates "sheet_metal") 10 ∧
      (∃ e, estimate_cost pSheet bb100 10 = some e ∧ e.process = "cnc_milling") ∧
      (processRates "sheet_metal").labor_rate.getD 16 = 14 ∧
      (processRates "sheet_metal").overhead_rate.getD (1/4) = 11/50 ∧
      (processRates "sheet_metal").time_per_cm3 = none ∧
      (processRates "sheet_metal").setup_time = none ∧
      (processRates "sheet_metal").tooling_base = none) :=
  ⟨rfl, by norm_num,
   sheet_metal_falls_through_to_cnc pSheet bb100 10 rfl (by norm_num)⟩

/-! ## C8: compare_processes is a stable ascending sort of the three
estimates -/

lemma orderedInsert_filter_key (a : CostEstimate) (l : List CostEstimate) (c : ℚ) :
    (l.orderedInsert costLE a).filter (fun e => decide (e.unit_cost = c))
      = if a.unit_cost = c
          then a :: l.filter (fun e => decide (e.unit_cost = c))
          else l.filter (fun e => decide (e.unit_cost = c)) := by
  induction l with
  | nil =>
      simp only [List.orderedInsert, List.filter]
      split_ifs with h <;> simp [h]
  | cons b t ih =>
      rw [List.orderedInsert]
      by_cases hr : costLE a b
      · rw [if_pos hr]
        by_cases hac : a.unit_cost = c <;> by_cases hbc : b.unit_cost = c <;>
          simp [List.filter_cons, hac, hbc]
      · rw [if_neg hr, List.filter_cons]
        by_cases hbc : b.unit_cost = c
        · by_cases hac : a.unit_cost = c
          · exfalso
            exact hr (le_of_le_of_eq (le_of_eq hac) hbc.symm)
          · simp [hbc, ih, hac]
        · by_cases hac : a.unit_cost = c <;> simp [hbc, ih, hac]

lemma insertionSort_filter_key (l : List CostEstimate) (c : ℚ) :
    (List.insertionSort costLE l).filter (fun e => decide (e.unit_cost = c))
      = l.filter (fun e => decide (e.unit_cost = c)) := by
  induction l with
  | nil => rfl
  | cons x t ih =>
      rw [List.insertionSort, orderedInsert_filter_key, List.filter_cons]
      by_cases hx : x.unit_cost = c <;> simp [hx, ih]

/-- C8: whenever `compare_processes` returns, it has evaluated exactly the
three processes cnc_milling, 3d_printing and injection_molding with the
same bounding box and quantity, and the returned list is a permutation of
those three estimates, non-decreasing in unit_cost, with ties keeping the
original process-list order (the filter at any unit-cost value is unchanged
— a stable sort). -/
theorem compare_processes_sorted_stable (p : DesignParams) (bb : BoundingBox)
    (q : ℤ) (l : List CostEstimate)
    (h : compare_processes p bb q = some l) :
    ∃ e1 e2 e3,
      estimate_cost (setProcess p "cnc_milling") bb q = some e1 ∧
      estimate_cost (setProcess p "3d_printing") bb q = some e2 ∧
      estimate_cost (setProcess p "injection_molding") bb q = some e3 ∧
      l.Perm [e1, e2, e3] ∧
      List.Sorted costLE l ∧
      ∀ c : ℚ, l.filter (fun e => decide (e.unit_cost = c))
          = [e1, e2, e3].filter (fun e => decide (e.unit_cost = c)) := by
  unfold compare_processes at h
  cases h1 : estimate_cost (setProcess p "cnc_milling") bb q with
  | none => rw [h1] at h; simp at h
  | some e1 =>
    cases h2 : estimate_cost (setProcess p "3d_printing") bb q with
    | none => rw [h1, h2] at h; simp at h
    | some e2 =>
      cases h3 : estimate_cost (setProcess p "injection_molding") bb q with
      | none => rw [h1, h2, h3] at h; simp at h
      | some e3 =>
        rw [h1, h2, h3] at h
        simp only [Option.bind_eq_bind, Option.some_bind, Option.some.injEq] at h
        subst h
        exact ⟨e1, e2, e3, rfl, rfl, rfl,
          List.perm_insertionSort costLE [e1, e2, e3],
          List.sorted_insertionSort costLE [e1, e2, e3],
          fun c => insertionSort_filter_key [e1, e2, e3] c⟩

/-- Witness for C8 at the default record, a zero-volume bounding box and
quantity 100: the three estimates come back ordered 3d_printing (0),
cnc_milling (5.06), injection_molding (60.12). -/
theorem compare_processes_sorted_stable_witness :
    compare_processes {} bb0 100 = some [estPrint0, estCnc0, estIm0] ∧
    ∃ e1 e2 e3,
      estimate_cost (setProcess {} "cnc_milling") bb0 100 = some e1 ∧
      estimate_cost (setProcess {} "3d_printing") bb0 100 = some e2 ∧
      estimate_cost (setProcess {} "injection_molding") bb0 100 = some e3 ∧
      List.Perm [estPrint0, estCnc0, estIm0] [e1, e2, e3] ∧
      List.Sorted costLE [estPrint0, estCnc0, estIm0] ∧
      ∀ c : ℚ, List.filter (fun e => decide (e.unit_cost = c))
            [estPrint0, estCnc0, estIm0]
          = [e1, e2, e3].filter (fun e => decide (e.unit_cost = c)) := by
  have h : compare_processes {} bb0 100 = some [estPrint0, estCnc0, estIm0] := by
    simp only [estPrint0, estCnc0, estIm0]
    norm_num [compare_processes, estimate_cost, setProcess, processOf, materialOf,
      massOf, volumeCm3Of, bb0, materialPrices, materialPriceOf, densities,
      processRates, estimateCncCost, estimate3dPrintingCost,
      estimateInjectionMoldingCost, roundTo, roundHalfEven, tdpUnitCost,
      List.insertionSort, List.orderedInsert, costLE]
    simp only [if_neg (by decide : ¬ ("3d_printing" = "cnc_milling")),
      if_neg (by decide : ¬ ("injection_molding" = "cnc_milling")),
      if_neg (by decide : ¬ ("injection_molding" = "3d_printing")),
      Option.some_bind]
    norm_num [List.orderedInsert, costLE]
  exact ⟨h, compare_processes_sorted_stable {} bb0 100 _ h⟩

end VibeCAD
